import Mathlib

/-!
Verification development for the request-validation pipeline of the
backend-wod repository: the Zod schema definitions in
src/validation/user.schema.ts and the Express validation middleware in
src/middleware/validate.middleware.ts, shallowly embedded as executable
Lean definitions over a JSON-like value type.
-/

/-- JSON-compatible runtime values as they flow through the middleware.
Numbers are modelled as exact rationals; jnan models the JavaScript NaN
value that the parseInt transform in paginationQuerySchema can produce. -/
inductive JValue where
  | jnull
  | jbool (b : Bool)
  | jnum (q : ℚ)
  | jnan
  | jstr (s : String)
  | jobj (kvs : List (String × JValue))

/-- Zod issue codes, restricted to the ones the embedded schemas can emit.
The middleware branches on invalidType (the code invalid_type in Zod). -/
inductive IssueCode where
  | invalidType
  | tooSmall
  | tooBig
  | invalidString
  | invalidEnumValue
  | custom
deriving DecidableEq

/-- One entry of a ZodError: path within the parsed object, issue code,
message, and the raw received value when Zod attaches one (only
invalid_enum_value issues carry the raw input value). -/
structure Issue where
  path : List String
  code : IssueCode
  message : String
  received : Option JValue

/-- The JavaScript typeof-style name Zod reports for a value
(ZodParsedType); the argument none stands for undefined (absent key). -/
def typeNameJ : JValue → String
  | .jnull => "null"
  | .jbool _ => "boolean"
  | .jnum _ => "number"
  | .jnan => "nan"
  | .jstr _ => "string"
  | .jobj _ => "object"

/-- Parse status of one field, as in Zod: valid, dirty (issues were
recorded but checks kept running), or aborted (a type mismatch stopped
the field; later refinements do not run). -/
inductive FStatus where
  | valid
  | dirty
  | aborted
deriving DecidableEq

/-- Result of evaluating one field schema: status, the issues recorded
for this field (paths relative to the field), and the running value
(none encodes the JavaScript undefined, i.e. the key is omitted). -/
structure FieldOut where
  status : FStatus
  issues : List Issue
  value : Option JValue

/-- A field schema: a function from the (possibly absent) raw value of
the key to a FieldOut. -/
def FieldEval := Option JValue → FieldOut

/-- Optional and custom messages attached to a Zod type check:
required_error (used when the key is absent) and invalid_type_error. -/
structure TypeMsgs where
  reqMsg : Option String := none
  invMsg : Option String := none

/-- The invalid_type issue Zod emits for a wrong-typed or absent value,
honoring required_error / invalid_type_error overrides. -/
def invalidTypeIssue (expected : String) (msgs : TypeMsgs) (inp : Option JValue) : Issue :=
  match inp with
  | none => ⟨[], .invalidType, msgs.reqMsg.getD "Required", none⟩
  | some v => ⟨[], .invalidType,
      msgs.invMsg.getD ("Expected " ++ expected ++ ", received " ++ typeNameJ v), none⟩

-- ===========================================================================
-- String helpers mirroring the JavaScript / Zod runtime behavior
-- ===========================================================================

/-- Digits of a decimal numeral folded into a natural number. -/
def digitsToNat (cs : List Char) : ℕ :=
  cs.foldl (fun a c => a * 10 + (c.toNat - 48)) 0

/-- JavaScript parseInt(s, 10): skip leading whitespace, read an optional
sign, then the longest prefix of decimal digits; NaN (modelled as none)
when no digit follows. This is what the transforms of
paginationQuerySchema apply to the page and limit strings. -/
def jsParseInt (s : String) : Option ℤ :=
  let cs := s.data.dropWhile (fun c => c.isWhitespace)
  let signed : ℤ × List Char :=
    match cs with
    | '-' :: rest => (-1, rest)
    | '+' :: rest => (1, rest)
    | rest => (1, rest)
  let ds := signed.2.takeWhile Char.isDigit
  if ds.isEmpty then none else some (signed.1 * digitsToNat ds)

/-- Split a character list on a separator character. -/
def splitOnAux (sep : Char) : List Char → List Char → List (List Char)
  | [], acc => [acc.reverse]
  | c :: rest, acc =>
      if c == sep then acc.reverse :: splitOnAux sep rest []
      else splitOnAux sep rest (c :: acc)

/-- Whether two consecutive dots occur anywhere in the list. -/
def hasDoubleDot : List Char → Bool
  | [] => false
  | '.' :: '.' :: _ => true
  | _ :: rest => hasDoubleDot rest

/-- Characters allowed in the local part of the Zod v3 email pattern
(letters, digits, underscore, apostrophe, plus, minus, dot). -/
def emailLocalChar (c : Char) : Bool :=
  c.isAlphanum || c == '_' || c == '+' || c == '-' || c == '.' || c.toNat == 39

/-- Characters allowed as the last character of the local part. -/
def emailLocalEnd (c : Char) : Bool :=
  c.isAlphanum || c == '_' || c == '+' || c == '-'

/-- One domain label of the email pattern: nonempty, starts alphanumeric,
continues with alphanumerics or hyphens. -/
def domainLabelOk (l : List Char) : Bool :=
  match l with
  | [] => false
  | c :: rest => c.isAlphanum && rest.all (fun d => d.isAlphanum || d == '-')

/-- Top-level domain of the email pattern: at least two letters. -/
def tldOk (l : List Char) : Bool :=
  decide (l.length ≥ 2) && l.all Char.isAlpha

/-- The email format test of z.string().email() in Zod v3: local part of
allowed characters not starting with a dot and ending in a non-dot
character, no two consecutive dots anywhere, an at sign, and a domain of
one or more labels followed by a letters-only top-level domain. -/
def zodEmailCheck (s : String) : Bool :=
  let cs := s.data
  match splitOnAux '@' cs [] with
  | [lpart, dpart] =>
      !hasDoubleDot cs &&
      (match lpart with
       | [] => false
       | c :: _ => c != '.') &&
      lpart.all emailLocalChar &&
      (match lpart.getLast? with
       | some c => emailLocalEnd c
       | none => false) &&
      (let parts := splitOnAux '.' dpart []
       decide (parts.length ≥ 2) &&
       (match parts.getLast? with
        | some t => tldOk t
        | none => false) &&
       parts.dropLast.all domainLabelOk)
  | _ => false

/-- Models the WHATWG URL-constructor acceptance used by z.string().url():
a letter-led scheme followed by a colon and a nonempty remainder. This is
an approximation of new URL(s); no claim in this development depends on
its fine structure. -/
def urlParseOk (s : String) : Bool :=
  match s.data with
  | [] => false
  | c :: rest =>
      c.isAlpha &&
      (let scheme := rest.takeWhile (fun d => d.isAlphanum || d == '+' || d == '-' || d == '.')
       match rest.drop scheme.length with
       | ':' :: more => !more.isEmpty
       | _ => false)

/-- The character class of the regex ^[a-zA-Z0-9_]+$ used for usernames. -/
def usernameRegexCheck (s : String) : Bool :=
  !s.data.isEmpty && s.data.all (fun c => c.isAlphanum || c == '_')

/-- The regex ^[a-f0-9]{64}$ used for the login hash. -/
def hashRegexCheck (s : String) : Bool :=
  s.data.length == 64 && s.data.all (fun c => c.isDigit || ('a' ≤ c && c ≤ 'f'))

/-- A timezone character of the regex used for the timezone field. -/
def tzChar (c : Char) : Bool := c.isAlpha || c == '_'

/-- The regex ^[A-Za-z_]+\/[A-Za-z_]+$ used for timezones: exactly two
nonempty letter-or-underscore segments separated by a slash. -/
def timezoneRegexCheck (s : String) : Bool :=
  match splitOnAux '/' s.data [] with
  | [a, b] => !a.isEmpty && a.all tzChar && !b.isEmpty && b.all tzChar
  | _ => false

/-- Consume exactly n characters satisfying p, returning the remainder. -/
def chompExact (p : Char → Bool) : ℕ → List Char → Option (List Char)
  | 0, cs => some cs
  | _ + 1, [] => none
  | n + 1, c :: rest => if p c then chompExact p n rest else none

/-- Remainders after consuming between lo and hi characters satisfying p
(the bounded repetition of a character class in a regex). -/
def chompRep (p : Char → Bool) (lo hi : ℕ) (cs : List Char) : List (List Char) :=
  (List.range (hi + 1)).filterMap
    (fun n => if lo ≤ n then chompExact p n cs else none)

/-- Remainders after an optional single character of a class. -/
def chompOptCls (p : Char → Bool) (cs : List Char) : List (List Char) :=
  match cs with
  | c :: rest => if p c then [cs, rest] else [cs]
  | [] => [cs]

/-- A separator of the phone regex: hyphen, whitespace or dot. -/
def isPhoneSep (c : Char) : Bool := c == '-' || c.isWhitespace || c == '.'

/-- The phone regex
^[+]?[(]?[0-9]\x7b1,4\x7d[)]?[-\s.]?[(]?[0-9]\x7b1,4\x7d[)]?[-\s.]?[0-9]\x7b1,9\x7d$
run as a backtracking matcher over character lists. -/
def phoneRegexCheck (s : String) : Bool :=
  let st0 := [s.data]
  let st1 := st0.flatMap (chompOptCls (fun c => c == '+'))
  let st2 := st1.flatMap (chompOptCls (fun c => c == '('))
  let st3 := st2.flatMap (chompRep Char.isDigit 1 4)
  let st4 := st3.flatMap (chompOptCls (fun c => c == ')'))
  let st5 := st4.flatMap (chompOptCls isPhoneSep)
  let st6 := st5.flatMap (chompOptCls (fun c => c == '('))
  let st7 := st6.flatMap (chompRep Char.isDigit 1 4)
  let st8 := st7.flatMap (chompOptCls (fun c => c == ')'))
  let st9 := st8.flatMap (chompOptCls isPhoneSep)
  let stA := st9.flatMap (chompRep Char.isDigit 1 9)
  stA.any List.isEmpty

/-- Read exactly n digit characters as a number, with the remainder. -/
def readDigits (n : ℕ) (cs : List Char) : Option (ℕ × List Char) :=
  let ds := cs.take n
  if ds.length == n && ds.all Char.isDigit then some (digitsToNat ds, cs.drop n) else none

/-- Days from the civil epoch 1970-01-01 for a Gregorian date
(the standard days-from-civil computation; exercised only for dates at
or after 1970, where every integer-division convention agrees). -/
def daysFromCivil (y : ℤ) (m d : ℕ) : ℤ :=
  let yAdj := if m ≤ 2 then y - 1 else y
  let era := (if yAdj ≥ 0 then yAdj else yAdj - 399) / 400
  let yoe := yAdj - era * 400
  let mp : ℤ := ((m : ℤ) + 9) % 12
  let doy := (153 * mp + 2) / 5 + (d : ℤ) - 1
  let doe := yoe * 365 + yoe / 4 - yoe / 100 + doy
  era * 146097 + doe - 719468

/-- Days of each month in a non-leap year. -/
def monthLen (leap : Bool) (m : ℕ) : ℕ :=
  match m with
  | 1 => 31 | 2 => if leap then 29 else 28 | 3 => 31 | 4 => 30
  | 5 => 31 | 6 => 30 | 7 => 31 | 8 => 31
  | 9 => 30 | 10 => 31 | 11 => 30 | 12 => 31
  | _ => 0

/-- Whether a Gregorian year is a leap year. -/
def isLeapYear (y : ℤ) : Bool :=
  (y % 4 == 0 && y % 100 != 0) || y % 400 == 0

/-- Parse an ISO 8601 UTC datetime of the shape accepted by
z.string().datetime() (yyyy-mm-ddThh:mm:ss with optional fraction,
terminated by Z) into epoch milliseconds, rejecting out-of-range
components the way new Date(s) yields an Invalid Date. -/
def parseIsoDatetime (s : String) : Option ℤ :=
  match readDigits 4 s.data with
  | none => none
  | some (y, r1) =>
  match r1 with
  | '-' :: r2 =>
    match readDigits 2 r2 with
    | none => none
    | some (mo, r3) =>
    match r3 with
    | '-' :: r4 =>
      match readDigits 2 r4 with
      | none => none
      | some (d, r5) =>
      match r5 with
      | 'T' :: r6 =>
        match readDigits 2 r6 with
        | none => none
        | some (h, r7) =>
        match r7 with
        | ':' :: r8 =>
          match readDigits 2 r8 with
          | none => none
          | some (mi, r9) =>
          match r9 with
          | ':' :: r10 =>
            match readDigits 2 r10 with
            | none => none
            | some (ss, r11) =>
            let fracTail : Option (ℕ × List Char) :=
              match r11 with
              | '.' :: r12 =>
                  let ds := r12.takeWhile Char.isDigit
                  if ds.isEmpty then none
                  else some (digitsToNat ((ds.take 3).append
                    (List.replicate (3 - (ds.take 3).length) '0')), r12.drop ds.length)
              | other => some (0, other)
            match fracTail with
            | none => none
            | some (ms, rend) =>
              if rend == ['Z'] &&
                 1 ≤ mo && mo ≤ 12 && 1 ≤ d && d ≤ monthLen (isLeapYear (y : ℤ)) mo &&
                 h ≤ 23 && mi ≤ 59 && ss ≤ 59 then
                some ((daysFromCivil (y : ℤ) mo d * 86400
                  + (h : ℤ) * 3600 + (mi : ℤ) * 60 + (ss : ℤ)) * 1000 + (ms : ℤ))
              else none
          | _ => none
        | _ => none
      | _ => none
    | _ => none
  | _ => none

/-- The format test of z.string().datetime(). -/
def datetimeCheckFn (s : String) : Bool := (parseIsoDatetime s).isSome

/-- Whether needle occurs as a contiguous run inside hay. -/
def subOccursL (needle hay : List Char) : Bool :=
  match hay with
  | [] => needle.isEmpty
  | _ :: rest => needle.isPrefixOf hay || subOccursL needle rest

/-- Whether one string occurs inside another. -/
def strOccurs (needle hay : String) : Bool := subOccursL needle.data hay.data

-- ===========================================================================
-- Zod combinators: string / number / boolean / enum checks, optional,
-- nullable, default, transform, refine, and object evaluation, mirroring
-- the Zod v3 parse semantics used by user.schema.ts
-- ===========================================================================

/-- Checks and in-place transforms attached to a ZodString, evaluated in
declaration order on the running string value (so a min-length check that
precedes trim is applied to the untrimmed string, as in Zod). -/
inductive StrCheck where
  | minLen (n : ℕ) (msg : String)
  | maxLen (n : ℕ) (msg : String)
  | emailChk (msg : String)
  | urlChk (msg : String)
  | datetimeChk (msg : String)
  | regexChk (test : String → Bool) (msg : String)
  | trimT
  | lowerT

/-- One step of the ZodString check loop: either record an issue (the
loop keeps running, collecting every violated constraint) or transform
the running value. -/
def strCheckStep (acc : List Issue × String) (c : StrCheck) : List Issue × String :=
  match c with
  | .minLen n msg =>
      if acc.2.length < n then (acc.1 ++ [⟨[], .tooSmall, msg, none⟩], acc.2) else acc
  | .maxLen n msg =>
      if acc.2.length > n then (acc.1 ++ [⟨[], .tooBig, msg, none⟩], acc.2) else acc
  | .emailChk msg =>
      if zodEmailCheck acc.2 then acc else (acc.1 ++ [⟨[], .invalidString, msg, none⟩], acc.2)
  | .urlChk msg =>
      if urlParseOk acc.2 then acc else (acc.1 ++ [⟨[], .invalidString, msg, none⟩], acc.2)
  | .datetimeChk msg =>
      if datetimeCheckFn acc.2 then acc else (acc.1 ++ [⟨[], .invalidString, msg, none⟩], acc.2)
  | .regexChk test msg =>
      if test acc.2 then acc else (acc.1 ++ [⟨[], .invalidString, msg, none⟩], acc.2)
  | .trimT => (acc.1, acc.2.trim)
  | .lowerT => (acc.1, acc.2.toLower)

/-- z.string() with a list of chained checks and transforms. A non-string
or absent input aborts with a single invalid_type issue; a string input
runs every check, collecting one issue per violated constraint. -/
def zstring (msgs : TypeMsgs) (checks : List StrCheck) : FieldEval := fun inp =>
  match inp with
  | some (.jstr s) =>
      let out := checks.foldl strCheckStep ([], s)
      ⟨if out.1.isEmpty then .valid else .dirty, out.1, some (.jstr out.2)⟩
  | _ => ⟨.aborted, [invalidTypeIssue "string" msgs inp], none⟩

/-- Checks attached to a ZodNumber. The int check emits an invalid_type
issue (as Zod does for z.number().int()); bounds emit too_small or
too_big. All checks run; none aborts the field. -/
inductive NumCheck where
  | intChk (msg : Option String)
  | minChk (bound : ℚ) (msg : String)
  | maxChk (bound : ℚ) (msg : String)
  | gtChk (bound : ℚ) (msg : String)

/-- One step of the ZodNumber check loop. -/
def numCheckStep (q : ℚ) (iss : List Issue) (c : NumCheck) : List Issue :=
  match c with
  | .intChk msg =>
      if q.den = 1 then iss
      else iss ++ [⟨[], .invalidType, msg.getD "Expected integer, received float", none⟩]
  | .minChk b msg => if q < b then iss ++ [⟨[], .tooSmall, msg, none⟩] else iss
  | .maxChk b msg => if q > b then iss ++ [⟨[], .tooBig, msg, none⟩] else iss
  | .gtChk b msg => if q ≤ b then iss ++ [⟨[], .tooSmall, msg, none⟩] else iss

/-- z.number() with chained checks. NaN and every non-number input abort
with a single invalid_type issue. -/
def znumber (msgs : TypeMsgs) (checks : List NumCheck) : FieldEval := fun inp =>
  match inp with
  | some (.jnum q) =>
      let iss := checks.foldl (numCheckStep q) []
      ⟨if iss.isEmpty then .valid else .dirty, iss, some (.jnum q)⟩
  | _ => ⟨.aborted, [invalidTypeIssue "number" msgs inp], none⟩

/-- z.boolean(). -/
def zboolean (msgs : TypeMsgs) : FieldEval := fun inp =>
  match inp with
  | some (.jbool b) => ⟨.valid, [], some (.jbool b)⟩
  | _ => ⟨.aborted, [invalidTypeIssue "boolean" msgs inp], none⟩

/-- z.enum(vals). A string outside the set yields an invalid_enum_value
issue carrying the received raw value; a customMsg (the errorMap attached
to the enum schemas of the source) overrides every message. -/
def zenumF (vals : List String) (customMsg : Option String) : FieldEval := fun inp =>
  match inp with
  | some (.jstr s) =>
      if vals.contains s then ⟨.valid, [], some (.jstr s)⟩
      else ⟨.aborted,
        [⟨[], .invalidEnumValue,
          customMsg.getD ("Invalid enum value. Expected one of " ++
            String.intercalate ", " vals ++ ", received " ++ s),
          some (.jstr s)⟩], none⟩
  | none => ⟨.aborted, [⟨[], .invalidType, customMsg.getD "Required", none⟩], none⟩
  | some v => ⟨.aborted,
      [⟨[], .invalidType,
        customMsg.getD ("Expected enum value, received " ++ typeNameJ v), none⟩], none⟩

/-- .optional(): an absent key passes through as undefined. -/
def optionalF (f : FieldEval) : FieldEval := fun inp =>
  match inp with
  | none => ⟨.valid, [], none⟩
  | some v => f (some v)

/-- .nullable(): a null value passes through unchanged. -/
def nullableF (f : FieldEval) : FieldEval := fun inp =>
  match inp with
  | some .jnull => ⟨.valid, [], some .jnull⟩
  | o => f o

/-- .default(d): an absent key is parsed as if the default had been
supplied. -/
def defaultF (d : JValue) (f : FieldEval) : FieldEval := fun inp =>
  match inp with
  | none => f (some d)
  | o => f o

/-- .transform(t): applied only when the inner parse is fully valid,
as in the Zod transform effect. -/
def transformF (t : JValue → JValue) (f : FieldEval) : FieldEval := fun inp =>
  let r := f inp
  match r.status with
  | .valid => { r with value := r.value.map t }
  | _ => r

/-- .refine(p, msg): runs on the inner value unless the inner parse
aborted; a failing predicate appends one custom issue (Zod executes
refinements even on dirty values). -/
def refineF (p : JValue → Bool) (msg : String) (f : FieldEval) : FieldEval := fun inp =>
  let r := f inp
  match r.status, r.value with
  | .aborted, _ => r
  | _, some v =>
      if p v then r
      else { r with status := .dirty, issues := r.issues ++ [⟨[], .custom, msg, none⟩] }
  | _, none => r

/-- One named field of an object schema. -/
structure FieldSpec where
  name : String
  eval : FieldEval

/-- First value bound to a key in a parsed JSON object. -/
def lookupJ (kvs : List (String × JValue)) (k : String) : Option JValue :=
  (kvs.find? (fun p => p.1 == k)).map (fun p => p.2)

/-- Re-root an issue of a field under the field name, as ZodObject does
when it merges the issues of its children. -/
def pathUnder (k : String) (i : Issue) : Issue :=
  { i with path := k :: i.path }

/-- The issues a ZodObject collects: for each declared field in
declaration order, the issues of that field re-rooted under the field
name. The loop never stops early. -/
def objIssues (fields : List FieldSpec) (kvs : List (String × JValue)) : List Issue :=
  fields.flatMap
    (fun f => ((f.eval (lookupJ kvs f.name)).issues).map (pathUnder f.name))

/-- The normalized output object: declared fields in declaration order,
each bound to its normalized value, with undefined values (absent
optional keys) and all undeclared input keys dropped. -/
def objOutput (fields : List FieldSpec) (kvs : List (String × JValue)) : List (String × JValue) :=
  fields.filterMap
    (fun f => ((f.eval (lookupJ kvs f.name)).value).map (fun v => (f.name, v)))

/-- z.object(shape) in the default strip mode: every declared field is
evaluated in declaration order against the value found under its key
(collecting all issues; no early stop), undeclared keys are dropped from
the output, and the object fails exactly when some field recorded an
issue. A non-object input fails with a single root invalid_type issue. -/
def evalObject (fields : List FieldSpec) : JValue → Except (List Issue) JValue
  | .jobj kvs =>
      if (objIssues fields kvs).isEmpty then .ok (.jobj (objOutput fields kvs))
      else .error (objIssues fields kvs)
  | v => .error [⟨[], .invalidType, "Expected object, received " ++ typeNameJ v, none⟩]

/-- The issues of a schema outcome (empty on success). -/
def issuesOf : Except (List Issue) JValue → List Issue
  | .error is => is
  | .ok _ => []

/-- A whole-schema evaluator, as handed to the middleware. -/
def SchemaE := JValue → Except (List Issue) JValue

-- ===========================================================================
-- Reusable field schemas from src/validation/user.schema.ts
-- ===========================================================================

/-- userRoleSchema: z.enum with a constant-message errorMap. -/
def userRoleSchema : FieldEval :=
  zenumF ["athlete", "coach", "admin"] (some "Role must be athlete, coach, or admin")

/-- userLevelSchema. -/
def userLevelSchema : FieldEval :=
  zenumF ["scaled", "intermediate", "rx"] (some "Level must be scaled, intermediate, or rx")

/-- userGenderSchema. -/
def userGenderSchema : FieldEval :=
  zenumF ["male", "female", "other"] (some "Gender must be male, female, or other")

/-- userLanguageSchema. -/
def userLanguageSchema : FieldEval :=
  zenumF ["uk", "en", "ru"] (some "Language must be uk, en, or ru")

/-- payoutMethodSchema. -/
def payoutMethodSchema : FieldEval :=
  zenumF ["bank_transfer", "paypal", "stripe"]
    (some "Payout method must be bank_transfer, paypal, or stripe")

/-- emailSchema: z.string().email().max(255).toLowerCase().trim() — note
that the format and length checks run before the case-folding and
trimming transforms. -/
def emailSchema : FieldEval :=
  zstring {} [.emailChk "Invalid email format",
              .maxLen 255 "Email must be at most 255 characters",
              .lowerT, .trimT]

/-- phoneNumberSchema: z.string().min(10).max(20).regex(...).trim(). -/
def phoneNumberSchema : FieldEval :=
  zstring {} [.minLen 10 "Phone number must be at least 10 characters",
              .maxLen 20 "Phone number must be at most 20 characters",
              .regexChk phoneRegexCheck "Invalid phone number format",
              .trimT]

/-- urlSchema: z.string().url().max(2048). -/
def urlSchema : FieldEval :=
  zstring {} [.urlChk "Invalid URL format",
              .maxLen 2048 "URL must be at most 2048 characters"]

/-- timezoneSchema: z.string().min(1).max(50).regex(two-segment pattern). -/
def timezoneSchema : FieldEval :=
  zstring {} [.minLen 1 "Timezone is required",
              .maxLen 50 "Timezone must be at most 50 characters",
              .regexChk timezoneRegexCheck "Timezone must be in IANA format (e.g., Europe/Kiev)"]

/-- The first refinement of dateOfBirthSchema: new Date(s) is at or
before the current time (an unparseable date compares as NaN and fails,
as in JavaScript). -/
def dobNotFuture (nowMs : ℤ) : JValue → Bool
  | .jstr s =>
      match parseIsoDatetime s with
      | some t => decide (t ≤ nowMs)
      | none => false
  | _ => false

/-- The second refinement of dateOfBirthSchema: the age computed in
milliseconds divided by 1000*60*60*24*365.25 is at most 120 years. -/
def dobAgeOk (nowMs : ℤ) : JValue → Bool
  | .jstr s =>
      match parseIsoDatetime s with
      | some t => decide ((((nowMs : ℚ) - (t : ℚ)) / (1000 * 60 * 60 * 24 * (365.25 : ℚ))) ≤ 120)
      | none => false
  | _ => false

/-- dateOfBirthSchema: z.string().datetime().refine(not future)
.refine(age at most 120). -/
def dateOfBirthSchema (nowMs : ℤ) : FieldEval :=
  refineF (dobAgeOk nowMs) "Date of birth seems invalid (age > 120 years)"
    (refineF (dobNotFuture nowMs) "Date of birth cannot be in the future"
      (zstring {} [.datetimeChk "Date of birth must be a valid ISO 8601 date"]))

-- ===========================================================================
-- createUserSchema
-- ===========================================================================

/-- The first_name field of createUserSchema:
z.string(custom messages).min(1).max(100).trim(). The length checks run
on the untrimmed input; the trim transform runs last. -/
def firstNameField : FieldEval :=
  zstring ⟨some "First name is required", some "First name must be a string"⟩
    [.minLen 1 "First name must be at least 1 character",
     .maxLen 100 "First name must be at most 100 characters",
     .trimT]

/-- The username field shared by createUserSchema and updateUserSchema:
z.string().min(3).max(50).regex(word characters).trim().optional().nullable(). -/
def usernameField : FieldEval :=
  nullableF (optionalF (zstring {}
    [.minLen 3 "Username must be at least 3 characters",
     .maxLen 50 "Username must be at most 50 characters",
     .regexChk usernameRegexCheck "Username can only contain letters, numbers, and underscores",
     .trimT]))

/-- The last_name field: z.string().max(100).trim().optional().nullable(). -/
def lastNameField : FieldEval :=
  nullableF (optionalF (zstring {}
    [.maxLen 100 "Last name must be at most 100 characters", .trimT]))

/-- createUserSchema from src/validation/user.schema.ts, field by field
in declaration order. -/
def createUserSchema : List FieldSpec :=
  [⟨"id", znumber ⟨some "User ID is required", some "User ID must be a number"⟩
      [.intChk (some "User ID must be an integer"),
       .gtChk 0 "User ID must be positive"]⟩,
   ⟨"first_name", firstNameField⟩,
   ⟨"username", usernameField⟩,
   ⟨"last_name", lastNameField⟩,
   ⟨"photo_url", nullableF (optionalF urlSchema)⟩,
   ⟨"role", optionalF userRoleSchema⟩,
   ⟨"language", optionalF userLanguageSchema⟩]

/-- The whole-schema evaluator for createUserSchema. -/
def evalCreateUser : SchemaE := evalObject createUserSchema

-- ===========================================================================
-- updateUserSchema
-- ===========================================================================

/-- updateUserSchema from src/validation/user.schema.ts, field by field
in declaration order; parameterized by the current time in epoch
milliseconds, read by the date_of_birth refinements. -/
def updateUserSchema (nowMs : ℤ) : List FieldSpec :=
  [⟨"id", znumber {} [.intChk none, .gtChk 0 "User ID must be positive"]⟩,
   ⟨"username", usernameField⟩,
   ⟨"first_name", optionalF (zstring {}
      [.minLen 1 "First name must be at least 1 character",
       .maxLen 100 "First name must be at most 100 characters",
       .trimT])⟩,
   ⟨"last_name", lastNameField⟩,
   ⟨"photo_url", nullableF (optionalF urlSchema)⟩,
   ⟨"email", nullableF (optionalF emailSchema)⟩,
   ⟨"phone_number", nullableF (optionalF phoneNumberSchema)⟩,
   ⟨"level", optionalF userLevelSchema⟩,
   ⟨"height_cm", nullableF (optionalF (znumber {}
      [.intChk (some "Height must be an integer"),
       .minChk 50 "Height must be at least 50 cm",
       .maxChk 250 "Height must be at most 250 cm"]))⟩,
   ⟨"weight_kg", nullableF (optionalF (znumber {}
      [.minChk 20 "Weight must be at least 20 kg",
       .maxChk 300 "Weight must be at most 300 kg"]))⟩,
   ⟨"date_of_birth", nullableF (optionalF (dateOfBirthSchema nowMs))⟩,
   ⟨"gender", nullableF (optionalF userGenderSchema)⟩,
   ⟨"experience_years", nullableF (optionalF (znumber {}
      [.intChk (some "Experience years must be an integer"),
       .minChk 0 "Experience years cannot be negative",
       .maxChk 80 "Experience years must be at most 80"]))⟩,
   ⟨"goals", nullableF (optionalF (zstring {}
      [.maxLen 1000 "Goals must be at most 1000 characters", .trimT]))⟩,
   ⟨"injuries", nullableF (optionalF (zstring {}
      [.maxLen 1000 "Injuries must be at most 1000 characters", .trimT]))⟩,
   ⟨"notes", nullableF (optionalF (zstring {}
      [.maxLen 2000 "Notes must be at most 2000 characters", .trimT]))⟩,
   ⟨"language", optionalF userLanguageSchema⟩,
   ⟨"timezone", optionalF timezoneSchema⟩,
   ⟨"notifications_enabled", optionalF (zboolean {})⟩,
   ⟨"bank_account_number", nullableF (optionalF (zstring {}
      [.minLen 8 "Bank account number must be at least 8 characters",
       .maxLen 34 "Bank account number must be at most 34 characters", .trimT]))⟩,
   ⟨"bank_account_holder", nullableF (optionalF (zstring {}
      [.minLen 2 "Bank account holder name must be at least 2 characters",
       .maxLen 100 "Bank account holder name must be at most 100 characters", .trimT]))⟩,
   ⟨"bank_name", nullableF (optionalF (zstring {}
      [.minLen 2 "Bank name must be at least 2 characters",
       .maxLen 100 "Bank name must be at most 100 characters", .trimT]))⟩,
   ⟨"paypal_email", nullableF (optionalF emailSchema)⟩,
   ⟨"payout_method", nullableF (optionalF payoutMethodSchema)⟩]

/-- The whole-schema evaluator for updateUserSchema. -/
def evalUpdateUser (nowMs : ℤ) : SchemaE := evalObject (updateUserSchema nowMs)

-- ===========================================================================
-- loginSchema
-- ===========================================================================

/-- The refinement of the auth_date field: the timestamp lies between
five minutes in the past and sixty seconds in the future of the current
Unix time in seconds. -/
def authDatePred (nowSec : ℤ) : JValue → Bool
  | .jnum q => decide ((nowSec : ℚ) - 300 ≤ q ∧ q ≤ (nowSec : ℚ) + 60)
  | _ => false

/-- The auth_date field of loginSchema:
z.number(custom messages).int().positive().refine(window check). -/
def authDateField (nowSec : ℤ) : FieldEval :=
  refineF (authDatePred nowSec) "Authentication date is invalid or expired"
    (znumber ⟨some "Authentication date is required",
              some "Authentication date must be a number"⟩
      [.intChk (some "Authentication date must be an integer"),
       .gtChk 0 "Authentication date must be positive"])

/-- loginSchema from src/validation/user.schema.ts, parameterized by the
current Unix time in seconds read by the auth_date refinement. -/
def loginSchema (nowSec : ℤ) : List FieldSpec :=
  [⟨"id", znumber ⟨some "Telegram ID is required", some "Telegram ID must be a number"⟩
      [.intChk (some "Telegram ID must be an integer"),
       .gtChk 0 "Telegram ID must be positive"]⟩,
   ⟨"first_name", firstNameField⟩,
   ⟨"username", optionalF (zstring {}
      [.minLen 3 "Username must be at least 3 characters",
       .maxLen 50 "Username must be at most 50 characters", .trimT])⟩,
   ⟨"last_name", optionalF (zstring {}
      [.maxLen 100 "Last name must be at most 100 characters", .trimT])⟩,
   ⟨"photo_url", optionalF urlSchema⟩,
   ⟨"auth_date", authDateField nowSec⟩,
   ⟨"hash", zstring ⟨some "Authentication hash is required", some "Hash must be a string"⟩
      [.minLen 64 "Invalid hash format",
       .maxLen 64 "Invalid hash format",
       .regexChk hashRegexCheck "Hash must be a valid SHA-256 hex string"]⟩]

/-- The whole-schema evaluator for loginSchema. -/
def evalLogin (nowSec : ℤ) : SchemaE := evalObject (loginSchema nowSec)

-- ===========================================================================
-- createUserRecordSchema
-- ===========================================================================

/-- The refinement of achieved_at: the date is not in the future. -/
def achievedNotFuture (nowMs : ℤ) : JValue → Bool
  | .jstr s =>
      match parseIsoDatetime s with
      | some t => decide (t ≤ nowMs)
      | none => false
  | _ => false

/-- createUserRecordSchema from src/validation/user.schema.ts. -/
def createUserRecordSchema (nowMs : ℤ) : List FieldSpec :=
  [⟨"exercise_name", zstring ⟨some "Exercise name is required",
        some "Exercise name must be a string"⟩
      [.minLen 1 "Exercise name must be at least 1 character",
       .maxLen 100 "Exercise name must be at most 100 characters", .trimT]⟩,
   ⟨"record_type", zstring ⟨some "Record type is required",
        some "Record type must be a string"⟩
      [.minLen 1 "Record type must be at least 1 character",
       .maxLen 50 "Record type must be at most 50 characters", .trimT]⟩,
   ⟨"value", znumber ⟨some "Record value is required",
        some "Record value must be a number"⟩
      [.gtChk 0 "Record value must be positive",
       .maxChk 100000 "Record value seems unreasonably high"]⟩,
   ⟨"unit", optionalF (zstring {}
      [.maxLen 20 "Unit must be at most 20 characters", .trimT])⟩,
   ⟨"achieved_at", optionalF (refineF (achievedNotFuture nowMs)
      "Achieved date cannot be in the future"
      (zstring {} [.datetimeChk "Achieved date must be a valid ISO 8601 date"]))⟩]

/-- The whole-schema evaluator for createUserRecordSchema. -/
def evalCreateUserRecord (nowMs : ℤ) : SchemaE := evalObject (createUserRecordSchema nowMs)

-- ===========================================================================
-- paginationQuerySchema
-- ===========================================================================

/-- The parseInt transform of the page and limit fields: a parse failure
produces the JavaScript NaN. -/
def toIntJ : JValue → JValue
  | .jstr s =>
      match jsParseInt s with
      | some n => .jnum (n : ℚ)
      | none => .jnan
  | v => v

/-- The refinement of the page field: not NaN and positive. -/
def pagePred : JValue → Bool
  | .jnum q => decide (0 < q)
  | _ => false

/-- The refinement of the limit field: not NaN, positive, at most 100. -/
def limitPred : JValue → Bool
  | .jnum q => decide (0 < q ∧ q ≤ 100)
  | _ => false

/-- The page field of paginationQuerySchema:
z.string().optional().default(1).transform(parseInt).refine(positive). -/
def pageField : FieldEval :=
  refineF pagePred "Page must be a positive number"
    (transformF toIntJ (defaultF (.jstr "1") (optionalF (zstring {} []))))

/-- The limit field of paginationQuerySchema:
z.string().optional().default(10).transform(parseInt).refine(1..100). -/
def limitField : FieldEval :=
  refineF limitPred "Limit must be between 1 and 100"
    (transformF toIntJ (defaultF (.jstr "10") (optionalF (zstring {} []))))

/-- paginationQuerySchema from src/validation/user.schema.ts. -/
def paginationQuerySchema : List FieldSpec :=
  [⟨"page", pageField⟩,
   ⟨"limit", limitField⟩,
   ⟨"sortBy", optionalF (zstring {}
      [.maxLen 50 "String must contain at most 50 character(s)"])⟩,
   ⟨"order", defaultF (.jstr "asc") (optionalF (zenumF ["asc", "desc"] none))⟩]

/-- The whole-schema evaluator for paginationQuerySchema. -/
def evalPagination : SchemaE := evalObject paginationQuerySchema

/-- Modelled from the spec: getUserParamsSchema is referenced by the
middleware examples and the spec but is not defined under src; modelled
from the GetUserRequest type of src/types/api.types.ts as an object with
one required string field userId. -/
def getUserParamsSchema : List FieldSpec :=
  [⟨"userId", zstring {} []⟩]

/-- The whole-schema evaluator for the modelled getUserParamsSchema. -/
def evalGetUserParams : SchemaE := evalObject getUserParamsSchema

-- ===========================================================================
-- Validation middleware from src/middleware/validate.middleware.ts
-- ===========================================================================

/-- ValidationOptions of the middleware: stripUnknown is declared in the
interface, but the validate function destructures only abortEarly. -/
structure ValidationOptions where
  stripUnknown : Option Bool := none
  abortEarly : Option Bool := none

/-- One formatted entry of the details array in a 400 response. -/
structure ErrorDetail where
  field : String
  message : String
  value : Option JValue

/-- The JSON error body sent by the middleware; details is absent in the
500 internal-error shape. -/
structure ApiErrorBody where
  success : Bool
  message : String
  code : String
  details : Option (List ErrorDetail)

/-- The observable effect of one validate invocation: either next() with
the target payload replaced by the normalized value, or a terminated
response. -/
inductive MwStep where
  | next (payload : JValue)
  | respond (status : ℕ) (body : ApiErrorBody)

/-- How the middleware formats one ZodError issue: dot-joined path,
message, and the received raw value except for invalid_type issues. -/
def formatIssue (i : Issue) : ErrorDetail :=
  ⟨String.intercalate "." i.path, i.message,
   if i.code = .invalidType then none else i.received⟩

/-- What the parse attempt inside the try block produced: a value, a
ZodError, or a non-Zod fault carrying its internal text. -/
inductive ParseOutcome where
  | ok (v : JValue)
  | zodError (issues : List Issue)
  | thrown (fault : String)

/-- The catch/response logic of the validate middleware: success calls
next() with the normalized value; a ZodError yields a 400 with the
formatted details (only the first entry when abortEarly); anything else
yields the fixed 500 internal-error body, which never carries the text
of the fault. -/
def runValidate (outcome : ParseOutcome) (options : ValidationOptions) : MwStep :=
  match outcome with
  | .ok v => .next v
  | .zodError issues =>
      let validationErrors := issues.map formatIssue
      .respond 400 ⟨false, "Validation failed", "VALIDATION_ERROR",
        some (if options.abortEarly.getD false then validationErrors.take 1
              else validationErrors)⟩
  | .thrown _ =>
      .respond 500 ⟨false, "Internal validation error", "INTERNAL_ERROR", none⟩

/-- The validate middleware applied to the target payload of a request:
parse with the schema, then dispatch on the outcome. -/
def validate (sEval : SchemaE) (options : ValidationOptions) (payload : JValue) : MwStep :=
  runValidate
    (match sEval payload with
     | .ok v => .ok v
     | .error issues => .zodError issues)
    options

/-- The three payload slots of a request context. -/
structure ReqState where
  body : JValue
  params : JValue
  query : JValue

/-- A validation target of the middleware. -/
inductive RTarget where
  | body
  | params
  | query
deriving DecidableEq

/-- Overwrite one payload slot with a normalized value. -/
def setTarget (req : ReqState) : RTarget → JValue → ReqState
  | .body, v => { req with body := v }
  | .params, v => { req with params := v }
  | .query, v => { req with query := v }

/-- The observable effect of one validateMultiple invocation: the request
state after the middleware ran, the response when one was sent, and
whether control passed to the next handler. -/
structure MwMultiOut where
  req : ReqState
  response : Option (ℕ × ApiErrorBody)
  calledNext : Bool

/-- The evaluations validateMultiple performs: one parse per provided
schema, created up front in the order body, params, query (so every
provided schema is evaluated regardless of failures elsewhere). -/
def vmRuns (sb sp sq : Option SchemaE) (req : ReqState) :
    List (RTarget × Except (List Issue) JValue) :=
  (match sb with
   | some f => [(RTarget.body, f req.body)]
   | none => []) ++
  (match sp with
   | some f => [(RTarget.params, f req.params)]
   | none => []) ++
  (match sq with
   | some f => [(RTarget.query, f req.query)]
   | none => [])

/-- The first rejection among the evaluations, as Promise.all reports it. -/
def vmFirstError (r : RTarget × Except (List Issue) JValue) : Option (List Issue) :=
  match r.2 with
  | .error is => some is
  | .ok _ => none

/-- validateMultiple: every provided schema is evaluated against its
target; when all succeed, every target is overwritten with its
normalized value and next() is called; when any fails, Promise.all
rejects with the first failing evaluation, a single 400 response carries
only that ZodError, and no target is overwritten (all-or-nothing
commit). -/
def validateMultiple (sb sp sq : Option SchemaE) (req : ReqState) : MwMultiOut :=
  match (vmRuns sb sp sq req).findSome? vmFirstError with
  | some issues =>
      { req := req,
        response := some (400, ⟨false, "Validation failed", "VALIDATION_ERROR",
          some (issues.map formatIssue)⟩),
        calledNext := false }
  | none =>
      { req := (vmRuns sb sp sq req).foldl (fun r p =>
          match p.2 with
          | .ok v => setTarget r p.1 v
          | .error _ => r) req,
        response := none,
        calledNext := true }

-- ===========================================================================
-- Claim theorems
-- ===========================================================================

/-- The multi-failure update-user payload of the spec: height 10, weight
1000, a malformed email, and all other fields valid (id present as the
schema requires, every optional field absent). -/
def updateUserMultiFailInput : JValue :=
  .jobj [("id", .jnum 7), ("email", .jstr "bad-email"),
         ("height_cm", .jnum 10), ("weight_kg", .jnum 1000)]

/-- C1: a failing schema evaluation produces one failure entry per
violated constraint, grouped per field in field-declaration order with
no early stop (the issue list of any object evaluation is the
concatenation, over the declared fields in order, of each field's
violated-constraint issues); in particular update-user with height 10,
weight 1000 and a malformed email yields exactly three entries with the
correct field paths in declaration order, and abortEarly reduces the
response details to exactly the first of them (the email violation). -/
theorem c1_all_failures_in_declaration_order :
    (∀ (fields : List FieldSpec) (kvs : List (String × JValue)),
       issuesOf (evalObject fields (.jobj kvs)) =
         fields.flatMap
           (fun f => ((f.eval (lookupJ kvs f.name)).issues).map (pathUnder f.name)))
    ∧ (∀ nowMs : ℤ,
        evalUpdateUser nowMs updateUserMultiFailInput =
          .error [⟨["email"], .invalidString, "Invalid email format", none⟩,
                  ⟨["height_cm"], .tooSmall, "Height must be at least 50 cm", none⟩,
                  ⟨["weight_kg"], .tooBig, "Weight must be at most 300 kg", none⟩])
    ∧ (∀ nowMs : ℤ,
        validate (evalUpdateUser nowMs) ⟨none, some true⟩ updateUserMultiFailInput =
          .respond 400 ⟨false, "Validation failed", "VALIDATION_ERROR",
            some [⟨"email", "Invalid email format", none⟩]⟩) := by
  refine ⟨?_, ?_, ?_⟩
  · intro fields kvs
    have key : issuesOf (evalObject fields (.jobj kvs)) = objIssues fields kvs := by
      unfold evalObject
      by_cases h : (objIssues fields kvs).isEmpty
      · have h0 : objIssues fields kvs = [] := by simpa using h
        simp [h, issuesOf, h0]
      · simp [h, issuesOf]
    rw [key]; rfl
  · intro nowMs; rfl
  · intro nowMs; rfl

/-- C2: whenever the schema rejects, the validate middleware responds
with status 400 and the exact body shape (success false, message
Validation failed, code VALIDATION_ERROR, details present); each details
entry carries the dot-joined field path, the issue message, and the
received raw value except for invalid_type issues, where the value is
omitted; with abortEarly the details are exactly the first violation. -/
theorem c2_validation_error_response_shape (sEval : SchemaE) (payload : JValue)
    (issues : List Issue) (options : ValidationOptions)
    (h : sEval payload = .error issues) :
    validate sEval options payload =
      .respond 400 ⟨false, "Validation failed", "VALIDATION_ERROR",
        some (if options.abortEarly.getD false then (issues.map formatIssue).take 1
              else issues.map formatIssue)⟩
    ∧ (∀ i ∈ issues,
        (formatIssue i).field = String.intercalate "." i.path ∧
        (formatIssue i).message = i.message ∧
        (i.code = .invalidType → (formatIssue i).value = none))
    ∧ (issues ≠ [] → options.abortEarly.getD false →
        ∃ i0 rest, issues = i0 :: rest ∧
          validate sEval options payload =
            .respond 400 ⟨false, "Validation failed", "VALIDATION_ERROR",
              some [formatIssue i0]⟩) := by
  refine ⟨?_, ?_, ?_⟩
  · simp [validate, runValidate, h]
  · intro i _
    refine ⟨rfl, rfl, fun hc => ?_⟩
    simp [formatIssue, hc]
  · intro hne hab
    match issues, hne with
    | i0 :: rest, _ =>
        exact ⟨i0, rest, rfl, by simp [validate, runValidate, h, hab]⟩

/-- Witness for C2 at a concrete failing payload: a pagination query
with limit zero produces the exact 400 body. -/
theorem c2_witness :
    validate evalPagination ⟨none, none⟩ (.jobj [("limit", .jstr "0")]) =
      .respond 400 ⟨false, "Validation failed", "VALIDATION_ERROR",
        some [⟨"limit", "Limit must be between 1 and 100", none⟩]⟩ :=
  (c2_validation_error_response_shape evalPagination (.jobj [("limit", .jstr "0")])
    [⟨["limit"], .custom, "Limit must be between 1 and 100", none⟩] ⟨none, none⟩ rfl).1

/-- A valid update-user body whose normalization differs from the raw
payload (the first name is trimmed). -/
def multiBodyRaw : JValue := .jobj [("id", .jnum 1), ("first_name", .jstr " Ann ")]

/-- The normalized form of multiBodyRaw. -/
def multiBodyNormalized : JValue := .jobj [("id", .jnum 1), ("first_name", .jstr "Ann")]

/-- C3: whenever validateMultiple sends an error response, no target
payload of the request is replaced and next() is not called (no partial
commit); concretely, a valid update-user body combined with invalid
params produces one 400 response that carries only the params violation,
and the body slot keeps its raw, un-normalized value even though the
body schema would have accepted and transformed it. -/
theorem c3_validateMultiple_no_partial_commit :
    (∀ (sb sp sq : Option SchemaE) (req : ReqState),
       (validateMultiple sb sp sq req).response.isSome →
         (validateMultiple sb sp sq req).req = req ∧
         (validateMultiple sb sp sq req).calledNext = false)
    ∧ (∀ nowMs : ℤ, evalUpdateUser nowMs multiBodyRaw = .ok multiBodyNormalized)
    ∧ multiBodyNormalized ≠ multiBodyRaw
    ∧ (∀ nowMs : ℤ,
        validateMultiple (some (evalUpdateUser nowMs)) (some evalGetUserParams) none
            ⟨multiBodyRaw, .jobj [], .jobj []⟩ =
          ⟨⟨multiBodyRaw, .jobj [], .jobj []⟩,
           some (400, ⟨false, "Validation failed", "VALIDATION_ERROR",
             some [⟨"userId", "Required", none⟩]⟩),
           false⟩) := by
  refine ⟨?_, fun _ => by with_unfolding_all rfl, ?_, fun _ => rfl⟩
  · intro sb sp sq req h
    cases hf : (vmRuns sb sp sq req).findSome? vmFirstError with
    | some issues => simp [validateMultiple, hf]
    | none => simp [validateMultiple, hf] at h
  · intro hcontra
    have := congrArg (fun v =>
      match v with
      | JValue.jobj (_ :: (_, JValue.jstr s) :: _) => s
      | _ => "") hcontra
    exact absurd this (by decide)

/-- Witness for C3 at a concrete request: a failing params schema leaves
the request untouched. -/
theorem c3_witness :
    (validateMultiple none (some evalGetUserParams) none
        ⟨.jobj [], .jobj [], .jobj []⟩).req =
      (⟨.jobj [], .jobj [], .jobj []⟩ : ReqState) :=
  (c3_validateMultiple_no_partial_commit.1 none (some evalGetUserParams) none
    ⟨.jobj [], .jobj [], .jobj []⟩ rfl).1

/-- On an input whose page field records no issues, the page field always
emits a number value: the parseInt transform applied to the supplied or
defaulted string. -/
theorem pageField_ok_value (o : Option JValue) (h : (pageField o).issues = []) :
    ∃ q : ℚ, (pageField o).value = some (.jnum q) := by
  cases o with
  | none => exact ⟨1, rfl⟩
  | some v =>
    cases v with
    | jstr s =>
        cases hp : jsParseInt s with
        | none =>
            exact absurd h (by
              simp [pageField, refineF, transformF, defaultF, optionalF, zstring,
                toIntJ, pagePred, hp])
        | some n =>
            refine ⟨(n : ℚ), ?_⟩
            by_cases hq : (0 : ℚ) < (n : ℚ)
            · simp [pageField, refineF, transformF, defaultF, optionalF, zstring,
                toIntJ, pagePred, hp, hq]
            · exact absurd h (by
                simp [pageField, refineF, transformF, defaultF, optionalF, zstring,
                  toIntJ, pagePred, hp, hq])
    | jnull =>
        exact absurd h (by simp [pageField, refineF, transformF, defaultF, optionalF, zstring])
    | jbool b =>
        exact absurd h (by simp [pageField, refineF, transformF, defaultF, optionalF, zstring])
    | jnum q =>
        exact absurd h (by simp [pageField, refineF, transformF, defaultF, optionalF, zstring])
    | jnan =>
        exact absurd h (by simp [pageField, refineF, transformF, defaultF, optionalF, zstring])
    | jobj kvs =>
        exact absurd h (by simp [pageField, refineF, transformF, defaultF, optionalF, zstring])

/-- A successful pagination evaluation always outputs an object whose
first key binds page to a number. -/
theorem evalPagination_ok_shape (i v : JValue) (h : evalPagination i = .ok v) :
    ∃ (q : ℚ) (rest : List (String × JValue)),
      v = .jobj (("page", JValue.jnum q) :: rest) := by
  cases i with
  | jobj kvs =>
      rw [show evalPagination (JValue.jobj kvs) =
            (if (objIssues paginationQuerySchema kvs).isEmpty then
               Except.ok (JValue.jobj (objOutput paginationQuerySchema kvs))
             else Except.error (objIssues paginationQuerySchema kvs)) from rfl] at h
      by_cases he : (objIssues paginationQuerySchema kvs).isEmpty
      · rw [if_pos he] at h
        have hv : v = .jobj (objOutput paginationQuerySchema kvs) := by
          cases h; rfl
        have h0 : objIssues paginationQuerySchema kvs = [] := by simpa using he
        have hpi : (pageField (lookupJ kvs "page")).issues = [] := by
          simp [objIssues, paginationQuerySchema] at h0
          exact h0.1
        obtain ⟨q, hq⟩ := pageField_ok_value _ hpi
        refine ⟨q, (objOutput paginationQuerySchema kvs).tail, ?_⟩
        rw [hv]
        have : objOutput paginationQuerySchema kvs =
            ("page", JValue.jnum q) :: (objOutput paginationQuerySchema kvs).tail := by
          conv_lhs => rw [objOutput]
          simp [paginationQuerySchema, List.filterMap_cons, hq, objOutput]
        conv_lhs => rw [this]
      · rw [if_neg he] at h
        cases h
  | jnull => exact absurd h (by simp [evalPagination, evalObject])
  | jbool b => exact absurd h (by simp [evalPagination, evalObject])
  | jnum q => exact absurd h (by simp [evalPagination, evalObject])
  | jnan => exact absurd h (by simp [evalPagination, evalObject])
  | jstr s => exact absurd h (by simp [evalPagination, evalObject])

/-- C4 counterexample: normalization is not a fixed point of
paginationQuerySchema: the normalized output of the empty query (integer
page and limit) is rejected outright when evaluated again, because both
fields then fail the string type check. -/
theorem c4_counterexample :
    evalPagination (.jobj []) =
      .ok (.jobj [("page", .jnum 1), ("limit", .jnum 10), ("order", .jstr "asc")])
    ∧ evalPagination
        (.jobj [("page", .jnum 1), ("limit", .jnum 10), ("order", .jstr "asc")]) =
      .error [⟨["page"], .invalidType, "Expected string, received number", none⟩,
              ⟨["limit"], .invalidType, "Expected string, received number", none⟩] :=
  ⟨rfl, rfl⟩

/-- C4 amended: evaluating paginationQuerySchema on its own normalized
output never succeeds: every accepted input normalizes page to an
integer, and re-evaluation rejects that integer because the page field
requires a string. (Normalization is therefore not a fixed point for
this schema, contrary to the original claim.) -/
theorem c4_pagination_never_idempotent (i v : JValue)
    (h : evalPagination i = .ok v) :
    ∃ es, evalPagination v = .error es ∧ es ≠ [] := by
  obtain ⟨q, rest, hv⟩ := evalPagination_ok_shape i v h
  subst hv
  have hlook : lookupJ (("page", JValue.jnum q) :: rest) "page" = some (.jnum q) := by
    simp [lookupJ, List.find?]
  have hpf : (pageField (some (.jnum q))).issues =
      [⟨[], .invalidType, "Expected string, received number", none⟩] := rfl
  have hne : objIssues paginationQuerySchema (("page", JValue.jnum q) :: rest) ≠ [] := by
    simp [objIssues, paginationQuerySchema, hlook, hpf, pathUnder]
  refine ⟨objIssues paginationQuerySchema (("page", JValue.jnum q) :: rest), ?_, hne⟩
  have hbool : (objIssues paginationQuerySchema
      (("page", JValue.jnum q) :: rest)).isEmpty = false := by
    cases hoi : objIssues paginationQuerySchema (("page", JValue.jnum q) :: rest) with
    | nil => exact absurd hoi hne
    | cons a l => rfl
  rw [show evalPagination (JValue.jobj (("page", JValue.jnum q) :: rest)) =
        (if (objIssues paginationQuerySchema (("page", JValue.jnum q) :: rest)).isEmpty then
           Except.ok (JValue.jobj (objOutput paginationQuerySchema
             (("page", JValue.jnum q) :: rest)))
         else Except.error (objIssues paginationQuerySchema
           (("page", JValue.jnum q) :: rest))) from rfl]
  rw [hbool]
  rfl

/-- Witness for C4: the amended theorem applied to the concrete empty
query and its normalized output. -/
theorem c4_witness :
    ∃ es, evalPagination
        (.jobj [("page", .jnum 1), ("limit", .jnum 10), ("order", .jstr "asc")]) =
      .error es ∧ es ≠ [] :=
  c4_pagination_never_idempotent (.jobj [])
    (.jobj [("page", .jnum 1), ("limit", .jnum 10), ("order", .jstr "asc")]) rfl

/-- C5: for a positive integer auth_date t and current Unix time nowSec,
the auth_date constraint chain of loginSchema records no issue exactly
when nowSec - 300 <= t <= nowSec + 60. -/
theorem c5_auth_date_window (nowSec t : ℤ) (ht : 0 < t) :
    (authDateField nowSec (some (.jnum (t : ℚ)))).issues = [] ↔
      (nowSec - 300 ≤ t ∧ t ≤ nowSec + 60) := by
  have hden : ((t : ℚ)).den = 1 := Rat.den_intCast t
  have hpos : ¬((t : ℚ) ≤ 0) := by exact_mod_cast not_le.mpr ht
  have hiff : (authDateField nowSec (some (.jnum (t : ℚ)))).issues = [] ↔
      authDatePred nowSec (.jnum (t : ℚ)) = true := by
    by_cases hP : authDatePred nowSec (.jnum (t : ℚ)) = true
    · simp [authDateField, refineF, znumber, numCheckStep, hden, hpos, hP]
    · simp [authDateField, refineF, znumber, numCheckStep, hden, hpos, hP]
  rw [hiff]
  simp only [authDatePred, decide_eq_true_eq]
  constructor
  · rintro ⟨ha, hb⟩
    refine ⟨?_, ?_⟩
    · exact_mod_cast ha
    · exact_mod_cast hb
  · rintro ⟨ha, hb⟩
    refine ⟨?_, ?_⟩
    · exact_mod_cast ha
    · exact_mod_cast hb

/-- Witness for C5: the boundary instances at a concrete current time:
now - 300 and now + 60 pass, now - 301 and now + 61 fail. -/
theorem c5_witness :
    (authDateField 1000000 (some (.jnum ((999700 : ℤ) : ℚ)))).issues = []
    ∧ (authDateField 1000000 (some (.jnum ((999699 : ℤ) : ℚ)))).issues ≠ []
    ∧ (authDateField 1000000 (some (.jnum ((1000060 : ℤ) : ℚ)))).issues = []
    ∧ (authDateField 1000000 (some (.jnum ((1000061 : ℤ) : ℚ)))).issues ≠ [] := by
  refine ⟨?_, ?_, ?_, ?_⟩
  · exact (c5_auth_date_window 1000000 999700 (by norm_num)).mpr (by norm_num)
  · intro hiss
    have := (c5_auth_date_window 1000000 999699 (by norm_num)).mp hiss
    omega
  · exact (c5_auth_date_window 1000000 1000060 (by norm_num)).mpr (by norm_num)
  · intro hiss
    have := (c5_auth_date_window 1000000 1000061 (by norm_num)).mp hiss
    omega

/-- C6: pagination defaults and boundaries: page defaults to integer 1
and limit to integer 10; limit 100 passes and normalizes to integer 100;
limit 101 and limit 0 fail; limit abc fails through the refinement whose
parse conjunct rejects the NaN result of parseInt (jsParseInt abc is
none); order defaults to asc, accepts desc, and rejects anything else. -/
theorem c6_pagination_defaults_and_bounds :
    evalPagination (.jobj []) =
      .ok (.jobj [("page", .jnum 1), ("limit", .jnum 10), ("order", .jstr "asc")])
    ∧ evalPagination (.jobj [("limit", .jstr "100")]) =
      .ok (.jobj [("page", .jnum 1), ("limit", .jnum 100), ("order", .jstr "asc")])
    ∧ evalPagination (.jobj [("limit", .jstr "101")]) =
      .error [⟨["limit"], .custom, "Limit must be between 1 and 100", none⟩]
    ∧ evalPagination (.jobj [("limit", .jstr "0")]) =
      .error [⟨["limit"], .custom, "Limit must be between 1 and 100", none⟩]
    ∧ evalPagination (.jobj [("limit", .jstr "abc")]) =
      .error [⟨["limit"], .custom, "Limit must be between 1 and 100", none⟩]
    ∧ jsParseInt "abc" = none
    ∧ evalPagination (.jobj [("order", .jstr "desc")]) =
      .ok (.jobj [("page", .jnum 1), ("limit", .jnum 10), ("order", .jstr "desc")])
    ∧ evalPagination (.jobj [("order", .jstr "sideways")]) =
      .error [⟨["order"], .invalidEnumValue,
        "Invalid enum value. Expected one of asc, desc, received sideways",
        some (.jstr "sideways")⟩] :=
  ⟨by with_unfolding_all rfl, by with_unfolding_all rfl, rfl, rfl, rfl, rfl,
   by with_unfolding_all rfl, rfl⟩

/-- C7 counterexample: a whitespace-only first_name is accepted by
createUserSchema and normalizes to the empty string, contradicting the
claim that a whitespace-only first_name is not accepted as a non-empty
name. -/
theorem c7_counterexample :
    evalCreateUser (.jobj [("id", .jnum 1), ("first_name", .jstr "   ")]) =
      .ok (.jobj [("id", .jnum 1), ("first_name", .jstr "")]) := by
  with_unfolding_all rfl

/-- C7 amended: the first_name field of createUserSchema accepts a
string exactly when the untrimmed input has length between 1 and 100
(the length checks run before the trim transform), and the normalized
value is the trimmed string, which may be empty; a padded name is
accepted and trimmed. -/
theorem c7_first_name_checks_untrimmed :
    (∀ s : String,
      ((firstNameField (some (.jstr s))).issues = [] ↔
        (1 ≤ s.length ∧ s.length ≤ 100))
      ∧ (firstNameField (some (.jstr s))).value = some (.jstr s.trim))
    ∧ evalCreateUser (.jobj [("id", .jnum 2), ("first_name", .jstr "  Bo  ")]) =
      .ok (.jobj [("id", .jnum 2), ("first_name", .jstr "Bo")]) := by
  refine ⟨?_, by with_unfolding_all rfl⟩
  intro s
  constructor
  · by_cases h1 : s.length < 1
    all_goals by_cases h2 : s.length > 100
    all_goals simp [firstNameField, zstring, strCheckStep, h1, h2]
    all_goals omega
  · by_cases h1 : s.length < 1
    all_goals by_cases h2 : s.length > 100
    all_goals simp [firstNameField, zstring, strCheckStep, h1, h2]

/-- C8 counterexample: the 500 internal-error body is one fixed
constant: two different faults under different option settings produce
the identical body, whose message does not contain the fault text; no
runtime flag exists in the middleware that could include it, so
inclusion is not flag-controlled as claimed. -/
theorem c8_counterexample :
    runValidate (.thrown "secret fault detail") ⟨none, none⟩ =
      .respond 500 ⟨false, "Internal validation error", "INTERNAL_ERROR", none⟩
    ∧ runValidate (.thrown "secret fault detail") ⟨none, none⟩ =
        runValidate (.thrown "other") ⟨some true, some true⟩
    ∧ strOccurs "secret fault detail" "Internal validation error" = false :=
  ⟨rfl, rfl, rfl⟩

/-- C8 amended: a fault that is not a ZodError makes the middleware
respond 500 with code INTERNAL_ERROR and no details (a shape distinct
from the 400 validation response), and the body is one fixed constant
independent of the fault and of every option: the raw fault text is
never included, in any configuration, because no runtime flag exists. -/
theorem c8_internal_error_constant :
    ∀ (fault : String) (options : ValidationOptions),
      runValidate (.thrown fault) options =
        .respond 500 ⟨false, "Internal validation error", "INTERNAL_ERROR", none⟩
      ∧ (∀ (fault2 : String) (options2 : ValidationOptions),
          runValidate (.thrown fault) options =
            runValidate (.thrown fault2) options2) :=
  fun _ _ => ⟨rfl, fun _ _ => rfl⟩

/-- C9: a successful object evaluation outputs only declared keys, so
unknown fields are always stripped; the stripUnknown option has no
effect on validate (which reads only abortEarly); concretely an
undeclared key is dropped from a create-user output. -/
theorem c9_unknown_keys_stripped :
    (∀ (fields : List FieldSpec) (kvs out : List (String × JValue)),
       evalObject fields (.jobj kvs) = .ok (.jobj out) →
         ∀ kv ∈ out, kv.1 ∈ fields.map FieldSpec.name)
    ∧ (∀ (sEval : SchemaE) (a b b2 : Option Bool) (p : JValue),
        validate sEval ⟨b, a⟩ p = validate sEval ⟨b2, a⟩ p)
    ∧ evalCreateUser
        (.jobj [("id", .jnum 2), ("first_name", .jstr "Bob"), ("admin", .jbool true)]) =
      .ok (.jobj [("id", .jnum 2), ("first_name", .jstr "Bob")]) := by
  refine ⟨?_, fun _ _ _ _ _ => rfl, by with_unfolding_all rfl⟩
  intro fields kvs out h kv hmem
  rw [show evalObject fields (.jobj kvs) =
        (if (objIssues fields kvs).isEmpty then
           Except.ok (JValue.jobj (objOutput fields kvs))
         else Except.error (objIssues fields kvs)) from rfl] at h
  by_cases he : (objIssues fields kvs).isEmpty
  · rw [if_pos he] at h
    have hout : out = objOutput fields kvs := by
      cases h; rfl
    subst hout
    unfold objOutput at hmem
    obtain ⟨f, hf, hv⟩ := List.mem_filterMap.mp hmem
    obtain ⟨w, _, hkv⟩ := Option.map_eq_some'.mp hv
    have hname : kv.1 = f.name := by rw [← hkv]
    rw [hname]
    exact List.mem_map_of_mem FieldSpec.name hf
  · rw [if_neg he] at h
    cases h

/-- Witness for C9: the stripping statement applied at a concrete
successful create-user evaluation with an undeclared key. -/
theorem c9_witness :
    ("id", JValue.jnum 2).1 ∈ createUserSchema.map FieldSpec.name :=
  c9_unknown_keys_stripped.1 createUserSchema
    [("id", .jnum 2), ("first_name", .jstr "Bob"), ("admin", .jbool true)]
    [("id", .jnum 2), ("first_name", .jstr "Bob")]
    (by with_unfolding_all rfl) ("id", .jnum 2) (List.mem_cons_self _ _)

/-- C10: the page and limit fields accept any string whose JavaScript
parseInt prefix value is an in-range positive integer and normalize to
that integer, rather than rejecting non-integer strings; concretely
limit 10.5 and page 2abc are accepted and normalize to 10 and 2. -/
theorem c10_parseint_prefix_accepted :
    (∀ (s : String) (n : ℤ), jsParseInt s = some n → 0 < n → n ≤ 100 →
       (limitField (some (.jstr s))).issues = [] ∧
       (limitField (some (.jstr s))).value = some (.jnum (n : ℚ)))
    ∧ (∀ (s : String) (n : ℤ), jsParseInt s = some n → 0 < n →
       (pageField (some (.jstr s))).issues = [] ∧
       (pageField (some (.jstr s))).value = some (.jnum (n : ℚ)))
    ∧ evalPagination (.jobj [("page", .jstr "2abc"), ("limit", .jstr "10.5")]) =
      .ok (.jobj [("page", .jnum 2), ("limit", .jnum 10), ("order", .jstr "asc")])
    ∧ jsParseInt "2abc" = some 2 ∧ jsParseInt "10.5" = some 10 := by
  refine ⟨?_, ?_, by with_unfolding_all rfl, rfl, rfl⟩
  · intro s n hp h0 h100
    have hq0 : (0 : ℚ) < (n : ℚ) := by exact_mod_cast h0
    have hq1 : ((n : ℚ)) ≤ 100 := by exact_mod_cast h100
    simp [limitField, refineF, transformF, defaultF, optionalF, zstring, toIntJ,
      limitPred, hp, hq0, hq1]
  · intro s n hp h0
    have hq0 : (0 : ℚ) < (n : ℚ) := by exact_mod_cast h0
    simp [pageField, refineF, transformF, defaultF, optionalF, zstring, toIntJ,
      pagePred, hp, hq0]

/-- Witness for C10: the limit field at the concrete string 10.5. -/
theorem c10_witness :
    (limitField (some (.jstr "10.5"))).issues = [] ∧
    (limitField (some (.jstr "10.5"))).value = some (.jnum ((10 : ℤ) : ℚ)) :=
  c10_parseint_prefix_accepted.1 "10.5" 10 rfl (by norm_num) (by norm_num)
